import Mathlib

/-!
Verification of the Google Maps Coordinates Extractor (src/src/App.tsx).

The application logic is shallowly embedded: JavaScript strings are Lean
strings (manipulated through their character lists), JavaScript numbers
produced by parseFloat on decimal tokens are represented exactly as
rationals, the regular-expression matchers of extractCoordinatesFromUrl
are embedded as leftmost-match scanners over character lists, and the
React component state together with the handleSubmit event handler is
embedded as a state-transition function on an explicit AppState record.
-/

namespace GmapsExtractor

/-- Whitespace as trimmed by the JavaScript String.prototype.trim:
space, tab, line feed, carriage return, vertical tab, form feed,
no-break space and the BOM character. -/
def isWS (c : Char) : Bool :=
  c = ' ' || c = '\t' || c = '\n' || c = '\r' ||
  c = Char.ofNat 11 || c = Char.ofNat 12 || c = Char.ofNat 160 ||
  c = Char.ofNat 65279

/-- Character-list version of JavaScript trim: drop whitespace from both ends. -/
def trimList (l : List Char) : List Char :=
  ((l.dropWhile isWS).reverse.dropWhile isWS).reverse

/-- Embedding of the JavaScript String.prototype.trim. -/
def jsTrim (s : String) : String :=
  ⟨trimList s.data⟩

/-- Boolean list-prefix test (used for startsWith and substring search). -/
def listIsPrefix : List Char → List Char → Bool
  | [], _ => true
  | _ :: _, [] => false
  | p :: ps, c :: cs => p == c && listIsPrefix ps cs

/-- Boolean substring-occurrence test on character lists. -/
def listContains (pat : List Char) : List Char → Bool
  | [] => listIsPrefix pat []
  | c :: cs => listIsPrefix pat (c :: cs) || listContains pat cs

/-- Embedding of the JavaScript String.prototype.includes. -/
def strContains (s pat : String) : Bool :=
  listContains pat.data s.data

/-- Embedding of the JavaScript String.prototype.startsWith. -/
def strStartsWith (s pat : String) : Bool :=
  listIsPrefix pat.data s.data

/-- Strip a literal prefix from a character list, returning the rest. -/
def stripPrefixL : List Char → List Char → Option (List Char)
  | [], l => some l
  | _ :: _, [] => none
  | p :: ps, c :: cs => if p == c then stripPrefixL ps cs else none

/-- Source isGoogleMapsUrl (App.tsx lines 197-203): the input is a Google
Maps URL when it contains one of three literal hostname/path fragments. -/
def isGoogleMapsUrl (input : String) : Bool :=
  strContains input "google.com/maps" ||
  strContains input "goo.gl/maps" ||
  strContains input "maps.app.goo.gl"

/-- Source isPlaceId (App.tsx lines 205-207). -/
def isPlaceId (input : String) : Bool :=
  strStartsWith input "ChIJ" || strStartsWith input "place_id:"

/-- Source getInputType (App.tsx lines 324-328): URL check first, then
Place ID, defaulting to Place Name. -/
def getInputType (input : String) : String :=
  if isGoogleMapsUrl input then "Google Maps URL"
  else if isPlaceId input then "Place ID"
  else "Place Name"

/-!
Regular-expression machinery.  Every coordinate pattern of
extractCoordinatesFromUrl has the form  anchor number separator number
with number drawn from the regex -?\d+\.?\d*.  In each pattern the first
number is followed by a required one-character literal that is neither a
digit nor a dot, so the greedy maximal-munch parse of the number is
exactly the backtracking regex semantics, and leftmost-match search is a
scan over all start positions.
-/

/-- Greedy parse of the unsigned part of the number regex \d+\.?\d*:
returns the matched token and the rest, or none when no digit is present. -/
def numTokenPos (cs : List Char) : Option (List Char × List Char) :=
  let ds := cs.takeWhile Char.isDigit
  if ds.isEmpty then none
  else
    match cs.dropWhile Char.isDigit with
    | '.' :: r2 =>
        some (ds ++ '.' :: r2.takeWhile Char.isDigit, r2.dropWhile Char.isDigit)
    | r => some (ds, r)

/-- Greedy parse of the number regex -?\d+\.?\d* at the head of the list. -/
def numToken : List Char → Option (List Char × List Char)
  | '-' :: cs =>
      match numTokenPos cs with
      | some (t, r) => some ('-' :: t, r)
      | none => none
  | cs => numTokenPos cs

/-- Parse a lat,lng pair: number, comma, number; captures both tokens. -/
def pairAt (cs : List Char) : Option (List Char × List Char) :=
  match numToken cs with
  | some (lat, r1) =>
      match r1 with
      | ',' :: r2 =>
          match numToken r2 with
          | some (lng, _) => some (lat, lng)
          | none => none
      | _ => none
  | none => none

/-- Anchored try of pattern 1, the at-sign viewport marker regex. -/
def tryAt : List Char → Option (List Char × List Char)
  | '@' :: cs => pairAt cs
  | _ => none

/-- Anchored try of the query-parameter patterns: a question mark or
ampersand, a literal key such as ll= or q= or center=, then lat,lng. -/
def tryQP (key : List Char) : List Char → Option (List Char × List Char)
  | c :: rest =>
      if c = '?' || c = '&' then
        match stripPrefixL key rest with
        | some r => pairAt r
        | none => none
      else none
  | [] => none

/-- Anchored try of pattern 5, a slash followed by lat,lng. -/
def tryDirect : List Char → Option (List Char × List Char)
  | '/' :: cs => pairAt cs
  | _ => none

/-- Anchored try of pattern 6, the precise marker regex with the two
coordinates introduced by the literals bang-3-d and bang-4-d. -/
def tryExact : List Char → Option (List Char × List Char)
  | '!' :: '3' :: 'd' :: cs =>
      match numToken cs with
      | some (lat, r1) =>
          match r1 with
          | '!' :: '4' :: 'd' :: r2 =>
              match numToken r2 with
              | some (lng, _) => some (lat, lng)
              | none => none
          | _ => none
      | none => none
  | _ => none

/-- Leftmost-match search: try the anchored matcher at every start
position from left to right and return the first success, as the
JavaScript String.prototype.match does for an unanchored regex. -/
def firstMatch (f : List Char → Option α) : List Char → Option α
  | [] => f []
  | c :: cs =>
      match f (c :: cs) with
      | some a => some a
      | none => firstMatch f cs

/-- Anchored try of the place-name regex: the literal maps/place/ then
one or more characters other than a slash, captured greedily. -/
def tryPlace (cs : List Char) : Option (List Char) :=
  match stripPrefixL "maps/place/".data cs with
  | some r =>
      let t := r.takeWhile (fun c => c ≠ '/')
      if t.isEmpty then none else some t
  | none => none

/-- Value of a hexadecimal digit character, if it is one. -/
def hexVal (c : Char) : Option Nat :=
  if '0' ≤ c ∧ c ≤ '9' then some (c.toNat - 48)
  else if 'a' ≤ c ∧ c ≤ 'f' then some (c.toNat - 87)
  else if 'A' ≤ c ∧ c ≤ 'F' then some (c.toNat - 55)
  else none

/-- Read one percent-encoded byte: a percent sign and two hex digits. -/
def readPctByte : List Char → Option (Nat × List Char)
  | '%' :: h1 :: h2 :: r =>
      match hexVal h1, hexVal h2 with
      | some a, some b => some (16 * a + b, r)
      | _, _ => none
  | _ => none

/-- Fueled worker for the decodeURIComponent embedding: characters pass
through unchanged except percent-encoded runs, which must spell valid
UTF-8 (correct continuation bytes, no overlong forms, no surrogates, at
most U+10FFFF); any violation is a URIError, modelled as none. -/
def decURIAux : Nat → List Char → Option (List Char)
  | 0, _ => none
  | _ + 1, [] => some []
  | fuel + 1, '%' :: cs =>
      match readPctByte ('%' :: cs) with
      | none => none
      | some (b, r) =>
        if b < 0x80 then
          (decURIAux fuel r).map (Char.ofNat b :: ·)
        else if b < 0xC2 then none
        else if b < 0xE0 then
          match readPctByte r with
          | some (b2, r2) =>
              if 0x80 ≤ b2 ∧ b2 < 0xC0 then
                (decURIAux fuel r2).map
                  (Char.ofNat ((b - 0xC0) * 64 + (b2 - 0x80)) :: ·)
              else none
          | none => none
        else if b < 0xF0 then
          match readPctByte r with
          | some (b2, r2) =>
              match readPctByte r2 with
              | some (b3, r3) =>
                  let cp := (b - 0xE0) * 4096 + (b2 - 0x80) * 64 + (b3 - 0x80)
                  if (0x80 ≤ b2 ∧ b2 < 0xC0) ∧ (0x80 ≤ b3 ∧ b3 < 0xC0) ∧
                     0x800 ≤ cp ∧ ¬ (0xD800 ≤ cp ∧ cp < 0xE000) then
                    (decURIAux fuel r3).map (Char.ofNat cp :: ·)
                  else none
              | none => none
          | none => none
        else if b < 0xF5 then
          match readPctByte r with
          | some (b2, r2) =>
              match readPctByte r2 with
              | some (b3, r3) =>
                  match readPctByte r3 with
                  | some (b4, r4) =>
                      let cp := (b - 0xF0) * 262144 + (b2 - 0x80) * 4096 +
                                (b3 - 0x80) * 64 + (b4 - 0x80)
                      if (0x80 ≤ b2 ∧ b2 < 0xC0) ∧ (0x80 ≤ b3 ∧ b3 < 0xC0) ∧
                         (0x80 ≤ b4 ∧ b4 < 0xC0) ∧
                         0x10000 ≤ cp ∧ cp < 0x110000 then
                        (decURIAux fuel r4).map (Char.ofNat cp :: ·)
                      else none
                  | none => none
              | none => none
          | none => none
        else none
  | fuel + 1, c :: cs => (decURIAux fuel cs).map (c :: ·)

/-- Embedding of decodeURIComponent on character lists: none models the
thrown URIError of the browser function. -/
def decURI (cs : List Char) : Option (List Char) :=
  decURIAux (cs.length + 1) cs

/-- The replace of plus signs by spaces applied to the captured place
name before decoding (App.tsx line 97). -/
def plusToSpace (c : Char) : Char :=
  if c = '+' then ' ' else c

/-- Place-name extraction of App.tsx lines 95-98: the first match of the
place regex, plus-to-space substitution, then decodeURIComponent.  The
outer none models the URIError that decodeURIComponent may throw, which
escapes to the surrounding try and makes the whole extraction return
null; some pn is normal completion with optional place name pn. -/
def placeNameOf (cs : List Char) : Option (Option String) :=
  match firstMatch tryPlace cs with
  | none => some none
  | some tok =>
      match decURI (tok.map plusToSpace) with
      | some out => some (some ⟨out⟩)
      | none => none

/-- Numeric value of a digit character. -/
def digitVal (c : Char) : Nat :=
  c.toNat - 48

/-- Decimal value of a digit-character list. -/
def natOfDigits (ds : List Char) : Nat :=
  ds.foldl (fun a c => 10 * a + digitVal c) 0

/-- Exact rational value of an unsigned captured token \d+\.?\d*. -/
def ratOfTokenPos (cs : List Char) : ℚ :=
  let ip := cs.takeWhile Char.isDigit
  let fp := match cs.dropWhile Char.isDigit with
    | '.' :: fs => fs
    | _ => []
  (natOfDigits ip : ℚ) + (natOfDigits fp : ℚ) / (10 : ℚ) ^ fp.length

/-- Embedding of parseFloat on a captured token -?\d+\.?\d*, as the exact
rational value of the decimal numeral. -/
def ratOfToken : List Char → ℚ
  | '-' :: cs => -(ratOfTokenPos cs)
  | cs => ratOfTokenPos cs

/-- A latitude/longitude pair (App.tsx interface Coordinates). -/
structure Coordinates where
  lat : ℚ
  lng : ℚ
deriving DecidableEq

/-- A successful extraction: coordinates with an optional place name. -/
structure Extracted where
  coordinates : Coordinates
  placeName : Option String
deriving DecidableEq

/-- Build an extraction result from an optional place name and the two
captured coordinate tokens. -/
def mkRes (pn : Option String) (p : List Char × List Char) : Extracted :=
  ⟨⟨ratOfToken p.1, ratOfToken p.2⟩, pn⟩

/-- Source extractCoordinatesFromUrl (App.tsx lines 87-183): trim the
URL, extract the optional place name (a decode error aborts the whole
extraction with null), then try the six coordinate patterns in source
order - at-sign, ll=, q=, center=, direct path slash, precise marker -
returning the first match. -/
def extractCoordinatesFromUrl (url : String) : Option Extracted :=
  let u := (jsTrim url).data
  match placeNameOf u with
  | none => none
  | some pn =>
    match firstMatch tryAt u with
    | some p => some (mkRes pn p)
    | none =>
      match firstMatch (tryQP "ll=".data) u with
      | some p => some (mkRes pn p)
      | none =>
        match firstMatch (tryQP "q=".data) u with
        | some p => some (mkRes pn p)
        | none =>
          match firstMatch (tryQP "center=".data) u with
          | some p => some (mkRes pn p)
          | none =>
            match firstMatch tryDirect u with
            | some p => some (mkRes pn p)
            | none =>
              match firstMatch tryExact u with
              | some p => some (mkRes pn p)
              | none => none

/-- Source geocodePlace (App.tsx lines 185-189): an unconditional stub. -/
def geocodePlace (_place : String) : Option Extracted :=
  none

/-- Source geocodePlaceId (App.tsx lines 191-195): an unconditional stub. -/
def geocodePlaceId (_placeId : String) : Option Extracted :=
  none

/-- The input-type tag of a history entry (App.tsx line 23). -/
inductive InputType where
  | url
  | place
  | placeId
deriving DecidableEq

/-- A history entry (App.tsx interface SearchResult).  The capture time
is measured in milliseconds since the epoch, the value of Date.now. -/
structure SearchResult where
  id : String
  input : String
  coordinates : Coordinates
  timestamp : Nat
  type : InputType
  placeName : Option String
deriving DecidableEq

/-- Modelled from the spec: the persisted store holds the history as
JSON with the timestamp serialized as an ISO-like string; the JSON and
Date conversions are browser platform functions, not repository code, so
the ISO-like string is modelled structurally by its numeric fields
(days since the epoch and the time of day down to milliseconds). -/
structure IsoTimestamp where
  days : Nat
  hour : Nat
  minute : Nat
  second : Nat
  milli : Nat
deriving DecidableEq

/-- Modelled from the spec: render an epoch-milliseconds instant as the
fields of its ISO-like string. -/
def isoOfMs (t : Nat) : IsoTimestamp :=
  ⟨t / 86400000, t % 86400000 / 3600000, t % 3600000 / 60000,
   t % 60000 / 1000, t % 1000⟩

/-- Modelled from the spec: read an ISO-like timestamp back into an
epoch-milliseconds instant, as new Date(string) does on load. -/
def msOfIso (i : IsoTimestamp) : Nat :=
  i.days * 86400000 + i.hour * 3600000 + i.minute * 60000 +
  i.second * 1000 + i.milli

/-- A history entry as it sits in the persisted JSON array: identical to
SearchResult except that the timestamp is the ISO-like serialized form. -/
structure StoredEntry where
  id : String
  input : String
  coordinates : Coordinates
  timestamp : IsoTimestamp
  type : InputType
  placeName : Option String
deriving DecidableEq

/-- Serialization of one entry by JSON.stringify (App.tsx lines 260-263):
every field is stored as-is except the timestamp, which becomes its
ISO-like string. -/
def serializeEntry (e : SearchResult) : StoredEntry :=
  ⟨e.id, e.input, e.coordinates, isoOfMs e.timestamp, e.type, e.placeName⟩

/-- Revival of one parsed entry on load (App.tsx lines 65-68): the item
is spread unchanged and the timestamp string is revived with new Date. -/
def reviveEntry (st : StoredEntry) : SearchResult :=
  ⟨st.id, st.input, st.coordinates, msOfIso st.timestamp, st.type, st.placeName⟩

/-- Serialization of the whole history list for localStorage.setItem. -/
def serializeHistory (h : List SearchResult) : List StoredEntry :=
  h.map serializeEntry

/-- The load mapping of App.tsx lines 65-68 applied to a parsed store. -/
def loadHistory (st : List StoredEntry) : List SearchResult :=
  st.map reviveEntry

/-- The history update of App.tsx line 258: prepend the new entry to the
first nine existing entries (slice(0, 9) is take 9). -/
def recordEntry (e : SearchResult) (h : List SearchResult) : List SearchResult :=
  e :: h.take 9

/-- Replace the first occurrence of a pattern by nothing, the effect of
the JavaScript replace with a string pattern (App.tsx line 231). -/
def removeFirstL (pat : List Char) : List Char → List Char
  | [] => []
  | c :: cs =>
      if listIsPrefix pat (c :: cs) then (c :: cs).drop pat.length
      else c :: removeFirstL pat cs

/-- The clean-up of the place_id: prefix before geocoding. -/
def removeFirst (s pat : String) : String :=
  ⟨removeFirstL pat.data s.data⟩

/-- The component state of App.tsx that the submit handler touches:
input field, loading flag, error message, current result, history list,
the persisted localStorage value under coordinatesHistory (none when the
key is absent), and the preferViewport checkbox state. -/
structure AppState where
  input : String
  loading : Bool
  error : String
  result : Option Extracted
  history : List SearchResult
  store : Option (List StoredEntry)
  preferViewport : Bool
deriving DecidableEq

/-- Error message of App.tsx lines 226-228. -/
def urlErrMsg : String :=
  "Could not extract coordinates from this Google Maps URL. Please try a different URL format."

/-- Error message of App.tsx lines 236-238. -/
def placeIdErrMsg : String :=
  "Could not find coordinates for this Place ID. Please check the ID and try again."

/-- Error message of App.tsx lines 241-243. -/
def placeNameErrMsg : String :=
  "Place name geocoding requires a Google Maps API key. Please use a Google Maps URL instead, or configure the API key."

/-- Source handleSubmit (App.tsx lines 209-274) as a state transition.
The parameter now is the current clock reading in epoch milliseconds,
used for Date.now().toString() and new Date().  A blank input returns
early with the state untouched; otherwise the handler classifies the
input, extracts or fails, and on success stores the result, prepends a
capped history entry and persists the new list; every non-blank path
ends with loading false (the finally block). -/
def handleSubmit (now : Nat) (s : AppState) : AppState :=
  if jsTrim s.input = "" then s
  else if isGoogleMapsUrl s.input then
    match extractCoordinatesFromUrl s.input with
    | none =>
        { s with loading := false, error := urlErrMsg, result := none }
    | some r =>
        let e : SearchResult :=
          ⟨toString now, jsTrim s.input, r.coordinates, now, InputType.url, r.placeName⟩
        let h := recordEntry e s.history
        { s with loading := false, error := "", result := some r,
                 history := h, store := some (serializeHistory h) }
  else if isPlaceId s.input then
    match geocodePlaceId (removeFirst s.input "place_id:") with
    | none =>
        { s with loading := false, error := placeIdErrMsg, result := none }
    | some r =>
        let e : SearchResult :=
          ⟨toString now, jsTrim s.input, r.coordinates, now, InputType.placeId, r.placeName⟩
        let h := recordEntry e s.history
        { s with loading := false, error := "", result := some r,
                 history := h, store := some (serializeHistory h) }
  else
    { s with loading := false, error := placeNameErrMsg, result := none }

/-!
Helper lemmas.
-/

lemma listIsPrefix_cons_ex {p : Char} {ps l : List Char}
    (h : listIsPrefix (p :: ps) l = true) : ∃ t, l = p :: t := by
  cases l with
  | nil => simp [listIsPrefix] at h
  | cons c cs =>
      simp only [listIsPrefix, Bool.and_eq_true, beq_iff_eq] at h
      exact ⟨cs, by rw [h.1]⟩

lemma trimList_ne_nil {c : Char} {l : List Char} (hc : isWS c = false) :
    trimList (c :: l) ≠ [] := by
  unfold trimList
  rw [List.dropWhile_cons, hc]
  simp only [Bool.false_eq_true, if_false]
  intro h
  rw [List.reverse_eq_nil_iff, List.dropWhile_eq_nil_iff] at h
  have := h c (by simp)
  rw [hc] at this
  exact Bool.false_ne_true this

lemma jsTrim_ne_empty_of_isPlaceId {s : String} (h : isPlaceId s = true) :
    jsTrim s ≠ "" := by
  have hex : ∃ c t, s.data = c :: t ∧ isWS c = false := by
    unfold isPlaceId strStartsWith at h
    rcases Bool.or_eq_true_iff.mp h with h1 | h1
    · have h2 : listIsPrefix ('C' :: "hIJ".data) s.data = true := h1
      obtain ⟨t, ht⟩ := listIsPrefix_cons_ex h2
      exact ⟨'C', t, ht, by decide⟩
    · have h2 : listIsPrefix ('p' :: "lace_id:".data) s.data = true := h1
      obtain ⟨t, ht⟩ := listIsPrefix_cons_ex h2
      exact ⟨'p', t, ht, by decide⟩
  obtain ⟨c, t, ht, hc⟩ := hex
  intro hcontra
  have hdata : (jsTrim s).data = [] := by rw [hcontra]
  have : trimList s.data = [] := hdata
  rw [ht] at this
  exact trimList_ne_nil hc this

lemma recordEntry_length_le {e : SearchResult} {h : List SearchResult}
    (hh : h.length ≤ 10) : (recordEntry e h).length ≤ 10 := by
  simp only [recordEntry, List.length_cons, List.length_take]
  omega

lemma foldl_record (es : List SearchResult) (h0 : List SearchResult)
    (hh : h0.length ≤ 10) :
    es.foldl (fun acc e => recordEntry e acc) h0 = (es.reverse ++ h0).take 10 := by
  induction es generalizing h0 with
  | nil =>
      simp only [List.foldl_nil, List.reverse_nil, List.nil_append]
      exact (List.take_of_length_le hh).symm
  | cons e es ih =>
      simp only [List.foldl_cons]
      rw [ih (recordEntry e h0) (recordEntry_length_le hh)]
      rw [List.reverse_cons, List.append_assoc]
      have he : recordEntry e h0 = (e :: h0).take 10 := rfl
      rw [he, List.take_append_eq_append_take, List.take_append_eq_append_take,
          List.take_take]
      have : min (10 - es.reverse.length) 10 = 10 - es.reverse.length := by omega
      rw [this]
      rfl

lemma iso_roundtrip (t : Nat) : msOfIso (isoOfMs t) = t := by
  simp only [isoOfMs, msOfIso]
  omega

lemma revive_serialize (e : SearchResult) : reviveEntry (serializeEntry e) = e := by
  cases e
  simp [reviveEntry, serializeEntry, iso_roundtrip]

section ExtractBranches

variable {url : String} {pn : Option String} {p : List Char × List Char}

lemma extract_at (hpn : placeNameOf (jsTrim url).data = some pn)
    (h1 : firstMatch tryAt (jsTrim url).data = some p) :
    extractCoordinatesFromUrl url = some (mkRes pn p) := by
  unfold extractCoordinatesFromUrl
  dsimp only
  rw [hpn, h1]

lemma extract_ll (hpn : placeNameOf (jsTrim url).data = some pn)
    (h1 : firstMatch tryAt (jsTrim url).data = none)
    (h2 : firstMatch (tryQP "ll=".data) (jsTrim url).data = some p) :
    extractCoordinatesFromUrl url = some (mkRes pn p) := by
  unfold extractCoordinatesFromUrl
  dsimp only
  rw [hpn, h1, h2]

lemma extract_q (hpn : placeNameOf (jsTrim url).data = some pn)
    (h1 : firstMatch tryAt (jsTrim url).data = none)
    (h2 : firstMatch (tryQP "ll=".data) (jsTrim url).data = none)
    (h3 : firstMatch (tryQP "q=".data) (jsTrim url).data = some p) :
    extractCoordinatesFromUrl url = some (mkRes pn p) := by
  unfold extractCoordinatesFromUrl
  dsimp only
  rw [hpn, h1, h2, h3]

lemma extract_center (hpn : placeNameOf (jsTrim url).data = some pn)
    (h1 : firstMatch tryAt (jsTrim url).data = none)
    (h2 : firstMatch (tryQP "ll=".data) (jsTrim url).data = none)
    (h3 : firstMatch (tryQP "q=".data) (jsTrim url).data = none)
    (h4 : firstMatch (tryQP "center=".data) (jsTrim url).data = some p) :
    extractCoordinatesFromUrl url = some (mkRes pn p) := by
  unfold extractCoordinatesFromUrl
  dsimp only
  rw [hpn, h1, h2, h3, h4]

lemma extract_direct (hpn : placeNameOf (jsTrim url).data = some pn)
    (h1 : firstMatch tryAt (jsTrim url).data = none)
    (h2 : firstMatch (tryQP "ll=".data) (jsTrim url).data = none)
    (h3 : firstMatch (tryQP "q=".data) (jsTrim url).data = none)
    (h4 : firstMatch (tryQP "center=".data) (jsTrim url).data = none)
    (h5 : firstMatch tryDirect (jsTrim url).data = some p) :
    extractCoordinatesFromUrl url = some (mkRes pn p) := by
  unfold extractCoordinatesFromUrl
  dsimp only
  rw [hpn, h1, h2, h3, h4, h5]

lemma extract_exact (hpn : placeNameOf (jsTrim url).data = some pn)
    (h1 : firstMatch tryAt (jsTrim url).data = none)
    (h2 : firstMatch (tryQP "ll=".data) (jsTrim url).data = none)
    (h3 : firstMatch (tryQP "q=".data) (jsTrim url).data = none)
    (h4 : firstMatch (tryQP "center=".data) (jsTrim url).data = none)
    (h5 : firstMatch tryDirect (jsTrim url).data = none)
    (h6 : firstMatch tryExact (jsTrim url).data = some p) :
    extractCoordinatesFromUrl url = some (mkRes pn p) := by
  unfold extractCoordinatesFromUrl
  dsimp only
  rw [hpn, h1, h2, h3, h4, h5, h6]

end ExtractBranches

lemma submit_url_success {s : AppState} {t : Nat} {r : Extracted}
    (hne : jsTrim s.input ≠ "") (hurl : isGoogleMapsUrl s.input = true)
    (hx : extractCoordinatesFromUrl s.input = some r) :
    handleSubmit t s =
      { s with loading := false, error := "", result := some r,
               history := recordEntry
                 ⟨toString t, jsTrim s.input, r.coordinates, t, InputType.url, r.placeName⟩
                 s.history,
               store := some (serializeHistory (recordEntry
                 ⟨toString t, jsTrim s.input, r.coordinates, t, InputType.url, r.placeName⟩
                 s.history)) } := by
  unfold handleSubmit
  rw [if_neg hne, if_pos (by simp [hurl]), hx]


lemma extract_none {url : String} {pn : Option String}
    (hpn : placeNameOf (jsTrim url).data = some pn)
    (h1 : firstMatch tryAt (jsTrim url).data = none)
    (h2 : firstMatch (tryQP "ll=".data) (jsTrim url).data = none)
    (h3 : firstMatch (tryQP "q=".data) (jsTrim url).data = none)
    (h4 : firstMatch (tryQP "center=".data) (jsTrim url).data = none)
    (h5 : firstMatch tryDirect (jsTrim url).data = none)
    (h6 : firstMatch tryExact (jsTrim url).data = none) :
    extractCoordinatesFromUrl url = none := by
  unfold extractCoordinatesFromUrl
  dsimp only
  rw [hpn, h1, h2, h3, h4, h5, h6]

lemma mkRes_eq {pn : Option String} {a b : List Char} {x y : ℚ}
    (ha : ratOfToken a = x) (hb : ratOfToken b = y) :
    mkRes pn (a, b) = ⟨⟨x, y⟩, pn⟩ := by
  simp [mkRes, ha, hb]

lemma tok_1 : ratOfToken ['1'] = 1 := by
  simp +decide [ratOfToken, ratOfTokenPos, natOfDigits, digitVal]
  try norm_num

lemma tok_2 : ratOfToken ['2'] = 2 := by
  simp +decide [ratOfToken, ratOfTokenPos, natOfDigits, digitVal]
  try norm_num

lemma tok_7 : ratOfToken ['7'] = 7 := by
  simp +decide [ratOfToken, ratOfTokenPos, natOfDigits, digitVal]
  try norm_num

lemma tok_8 : ratOfToken ['8'] = 8 := by
  simp +decide [ratOfToken, ratOfTokenPos, natOfDigits, digitVal]
  try norm_num

lemma tok_1_5 : ratOfToken ['1', '.', '5'] = 1.5 := by
  simp +decide [ratOfToken, ratOfTokenPos, natOfDigits, digitVal]
  try norm_num

lemma tok_2_5 : ratOfToken ['2', '.', '5'] = 2.5 := by
  simp +decide [ratOfToken, ratOfTokenPos, natOfDigits, digitVal]
  try norm_num

lemma tok_12_34 : ratOfToken ['1', '2', '.', '3', '4'] = 12.34 := by
  simp +decide [ratOfToken, ratOfTokenPos, natOfDigits, digitVal]
  try norm_num

lemma tok_m56_78 : ratOfToken ['-', '5', '6', '.', '7', '8'] = -56.78 := by
  simp +decide [ratOfToken, ratOfTokenPos, natOfDigits, digitVal]
  try norm_num

lemma tok_m56_789 : ratOfToken ['-', '5', '6', '.', '7', '8', '9'] = -56.789 := by
  simp +decide [ratOfToken, ratOfTokenPos, natOfDigits, digitVal]
  try norm_num

/-!
Claim theorems.
-/

/-- C9: the record operation of handleSubmit unconditionally re-establishes
the history cap: for every prior history list of any length, recording one
new entry yields a history of length at most 10 with the new entry first. -/
theorem record_reestablishes_cap (e : SearchResult) (h : List SearchResult) :
    (recordEntry e h).length ≤ 10 ∧ (recordEntry e h).head? = some e := by
  constructor
  · simp only [recordEntry, List.length_cons, List.length_take]
    omega
  · rfl

/-- C10: submitting a blank (empty or whitespace-only) input is a no-op:
the handler returns before touching the loading flag, error, result,
history or persisted store. -/
theorem blank_input_submit_noop (s : AppState) (t : Nat)
    (h : jsTrim s.input = "") : handleSubmit t s = s := by
  unfold handleSubmit
  rw [if_pos h]

/-- Witness for C10 at a whitespace-only input. -/
theorem blank_input_submit_noop_witness :
    handleSubmit 5 ⟨"   ", false, "", none, [], none, true⟩ =
      ⟨"   ", false, "", none, [], none, true⟩ :=
  blank_input_submit_noop ⟨"   ", false, "", none, [], none, true⟩ 5 (by decide)

/-- C7: serializing a history list to the persisted store and reloading
it (reviving the ISO-like timestamp strings into time values) reproduces
the original entries, with timestamps equal as instants. -/
theorem serialize_reload_roundtrip (h : List SearchResult) :
    loadHistory (serializeHistory h) = h := by
  unfold loadHistory serializeHistory
  rw [List.map_map]
  have hfun : reviveEntry ∘ serializeEntry = id :=
    funext fun e => revive_serialize e
  rw [hfun, List.map_id]

/-- C4: recording 11 entries in sequence starting from an empty history
leaves exactly the 10 most recent entries, most-recent-first. -/
theorem record_eleven_entries (es : List SearchResult) (h : es.length = 11) :
    es.foldl (fun acc e => recordEntry e acc) [] = es.reverse.take 10 ∧
    (es.foldl (fun acc e => recordEntry e acc) []).length = 10 := by
  have h1 := foldl_record es [] (by simp)
  rw [List.append_nil] at h1
  refine ⟨h1, ?_⟩
  rw [h1, List.length_take, List.length_reverse, h]
  decide

/-- Witness for C4 with 11 concrete entries. -/
theorem record_eleven_entries_witness :
    ((List.range 11).map fun i =>
        (⟨"", "", ⟨0, 0⟩, i, InputType.url, none⟩ : SearchResult)).foldl
      (fun acc e => recordEntry e acc) [] =
      ((List.range 11).map fun i =>
        (⟨"", "", ⟨0, 0⟩, i, InputType.url, none⟩ : SearchResult)).reverse.take 10 ∧
    (((List.range 11).map fun i =>
        (⟨"", "", ⟨0, 0⟩, i, InputType.url, none⟩ : SearchResult)).foldl
      (fun acc e => recordEntry e acc) []).length = 10 :=
  record_eleven_entries _ (by simp)

/-- C3: an input classified as a Place ID (not a Google Maps URL, starts
with ChIJ or place_id:) always fails on submit with the Place ID error
message, and the failure is atomic: result is cleared and the history and
the persisted store are left exactly as they were. -/
theorem placeId_submit_fails_history_unchanged (s : AppState) (t : Nat)
    (h1 : isGoogleMapsUrl s.input = false) (h2 : isPlaceId s.input = true) :
    handleSubmit t s =
      { s with loading := false, error := placeIdErrMsg, result := none } := by
  have hne := jsTrim_ne_empty_of_isPlaceId h2
  unfold handleSubmit
  rw [if_neg hne, if_neg (by simp [h1]), if_pos (by simp [h2])]
  rfl

/-- Witness for C3 at a concrete ChIJ input. -/
theorem placeId_submit_fails_history_unchanged_witness :
    handleSubmit 7 ⟨"ChIJabc123", true, "old", some ⟨⟨1, 2⟩, none⟩,
        [⟨"1", "x", ⟨3, 4⟩, 5, InputType.url, none⟩], none, true⟩ =
      ⟨"ChIJabc123", false, placeIdErrMsg, none,
        [⟨"1", "x", ⟨3, 4⟩, 5, InputType.url, none⟩], none, true⟩ :=
  placeId_submit_fails_history_unchanged
    ⟨"ChIJabc123", true, "old", some ⟨⟨1, 2⟩, none⟩,
      [⟨"1", "x", ⟨3, 4⟩, 5, InputType.url, none⟩], none, true⟩ 7
    (by decide) (by decide)


/-- C8: the result of submitting any input is independent of the
preferViewport preference flag: handleSubmit never reads the flag, so
running it with the flag set either way yields the same result, error,
history and store, the flag itself passing through untouched. -/
theorem submit_independent_of_preferViewport (s : AppState) (t : Nat) (b : Bool) :
    handleSubmit t { s with preferViewport := b } =
      { handleSubmit t s with preferViewport := b } := by
  obtain ⟨i, l, e, r, h, st, pv⟩ := s
  unfold handleSubmit
  dsimp only
  by_cases h1 : jsTrim i = ""
  · simp only [if_pos h1]
  · simp only [if_neg h1]
    by_cases h2 : isGoogleMapsUrl i = true
    · simp only [h2, if_true]
      cases hx : extractCoordinatesFromUrl i <;> simp only [hx]
    · simp only [Bool.not_eq_true] at h2
      simp only [h2, Bool.false_eq_true, if_false]
      by_cases h3 : isPlaceId i = true
      · simp only [h3, if_true, geocodePlaceId]
      · simp only [Bool.not_eq_true] at h3
        simp only [h3, Bool.false_eq_true, if_false]

/-- C1 counterexample evaluation: at a URL carrying both a viewport and a
precise marker, submitted with prefer-exact active (preferViewport
false), the handler surfaces the at-pattern coordinates (1.5, 2.5), not
the precise-marker coordinates (1.1, 2.2) the claim requires; the
extraction never reads the flag. -/
theorem prefer_exact_mode_ignored :
    firstMatch tryExact (jsTrim "google.com/maps/@1.5,2.5!3d1.1!4d2.2").data =
      some (['1', '.', '1'], ['2', '.', '2']) ∧
    (handleSubmit 0
        ⟨"google.com/maps/@1.5,2.5!3d1.1!4d2.2", false, "", none, [], none,
          false⟩).result = some ⟨⟨1.5, 2.5⟩, none⟩ ∧
    some (⟨⟨1.5, 2.5⟩, none⟩ : Extracted) ≠ some ⟨⟨1.1, 2.2⟩, none⟩ := by
  refine ⟨by decide, ?_, ?_⟩
  · have hx : extractCoordinatesFromUrl "google.com/maps/@1.5,2.5!3d1.1!4d2.2" =
        some ⟨⟨1.5, 2.5⟩, none⟩ := by
      rw [@extract_at "google.com/maps/@1.5,2.5!3d1.1!4d2.2" none
        (['1', '.', '5'], ['2', '.', '5']) (by decide) (by decide)]
      exact congrArg some (mkRes_eq tok_1_5 tok_2_5)
    rw [@submit_url_success
      ⟨"google.com/maps/@1.5,2.5!3d1.1!4d2.2", false, "", none, [], none,
        false⟩ 0 ⟨⟨1.5, 2.5⟩, none⟩ (by decide) (by decide) hx]
  · norm_num [Extracted.mk.injEq, Coordinates.mk.injEq]

/-- C2 counterexample: a URL where both the ll= pattern and the precise
marker match; the extractor returns the ll= coordinates (1, 2), not the
precise-marker coordinates (3, 4) the claimed priority order requires. -/
theorem exact_marker_loses_to_ll_cex :
    firstMatch tryExact (jsTrim "google.com/maps?ll=1,2&x=!3d3!4d4").data =
      some (['3'], ['4']) ∧
    extractCoordinatesFromUrl "google.com/maps?ll=1,2&x=!3d3!4d4" =
      some ⟨⟨1, 2⟩, none⟩ ∧
    (⟨⟨1, 2⟩, none⟩ : Extracted) ≠ ⟨⟨3, 4⟩, none⟩ := by
  refine ⟨by decide, ?_, ?_⟩
  · rw [@extract_ll "google.com/maps?ll=1,2&x=!3d3!4d4" none (['1'], ['2'])
      (by decide) (by decide) (by decide)]
    exact congrArg some (mkRes_eq tok_1 tok_2)
  · norm_num [Extracted.mk.injEq, Coordinates.mk.injEq]

/-- C2 amended: the extractor tries its patterns in the source order
at-sign, ll=, q=, center=, bare path slash, and the precise marker last,
returning the first match; when every pattern fails it returns none. -/
theorem extractor_priority_order (url : String) (pn : Option String)
    (hpn : placeNameOf (jsTrim url).data = some pn) :
    (∀ p, firstMatch tryAt (jsTrim url).data = some p →
      extractCoordinatesFromUrl url = some (mkRes pn p)) ∧
    (firstMatch tryAt (jsTrim url).data = none →
      (∀ p, firstMatch (tryQP "ll=".data) (jsTrim url).data = some p →
        extractCoordinatesFromUrl url = some (mkRes pn p)) ∧
      (firstMatch (tryQP "ll=".data) (jsTrim url).data = none →
        (∀ p, firstMatch (tryQP "q=".data) (jsTrim url).data = some p →
          extractCoordinatesFromUrl url = some (mkRes pn p)) ∧
        (firstMatch (tryQP "q=".data) (jsTrim url).data = none →
          (∀ p, firstMatch (tryQP "center=".data) (jsTrim url).data = some p →
            extractCoordinatesFromUrl url = some (mkRes pn p)) ∧
          (firstMatch (tryQP "center=".data) (jsTrim url).data = none →
            (∀ p, firstMatch tryDirect (jsTrim url).data = some p →
              extractCoordinatesFromUrl url = some (mkRes pn p)) ∧
            (firstMatch tryDirect (jsTrim url).data = none →
              (∀ p, firstMatch tryExact (jsTrim url).data = some p →
                extractCoordinatesFromUrl url = some (mkRes pn p)) ∧
              (firstMatch tryExact (jsTrim url).data = none →
                extractCoordinatesFromUrl url = none)))))) :=
  ⟨fun _ hp => extract_at hpn hp,
    fun h1 => ⟨fun _ hp => extract_ll hpn h1 hp,
      fun h2 => ⟨fun _ hp => extract_q hpn h1 h2 hp,
        fun h3 => ⟨fun _ hp => extract_center hpn h1 h2 h3 hp,
          fun h4 => ⟨fun _ hp => extract_direct hpn h1 h2 h3 h4 hp,
            fun h5 => ⟨fun _ hp => extract_exact hpn h1 h2 h3 h4 h5 hp,
              fun h6 => extract_none hpn h1 h2 h3 h4 h5 h6⟩⟩⟩⟩⟩⟩

/-- Witness for C2 amended: the ll= branch fires on a URL whose at-sign
pattern fails, even though the precise marker is also present. -/
theorem extractor_priority_order_witness :
    extractCoordinatesFromUrl "google.com/maps?ll=7,8&x=!3d3!4d4" =
      some (mkRes none (['7'], ['8'])) :=
  ((extractor_priority_order "google.com/maps?ll=7,8&x=!3d3!4d4" none
      (by decide)).2 (by decide)).1 (['7'], ['8']) (by decide)

/-- C5 counterexample: an input that starts with ChIJ but also contains a
Google Maps hostname fragment classifies as URL, not as Place ID; the URL
check takes precedence over the ChIJ prefix. -/
theorem chij_url_precedence_cex :
    strStartsWith "ChIJ x google.com/maps" "ChIJ" = true ∧
    getInputType "ChIJ x google.com/maps" = "Google Maps URL" ∧
    ("Google Maps URL" : String) ≠ "Place ID" := by
  refine ⟨by decide, by decide, by decide⟩

/-- C5 amended: the classifier is total and three-way with URL taking
precedence: any input containing a maps hostname fragment is a URL, an
input starting with ChIJ or place_id: that is not a maps URL is a Place
ID, and everything else is a Place name. -/
theorem classifier_three_way (s : String) :
    (getInputType s = "Google Maps URL" ∨ getInputType s = "Place ID" ∨
      getInputType s = "Place Name") ∧
    (isGoogleMapsUrl s = true → getInputType s = "Google Maps URL") ∧
    (isGoogleMapsUrl s = false → isPlaceId s = true →
      getInputType s = "Place ID") ∧
    (isGoogleMapsUrl s = false → isPlaceId s = false →
      getInputType s = "Place Name") := by
  cases h1 : isGoogleMapsUrl s <;> cases h2 : isPlaceId s <;>
    simp [getInputType, h1, h2]

/-- Witness for C5 amended at the three example inputs of the spec. -/
theorem classifier_three_way_witness :
    getInputType "ChIJabc123" = "Place ID" ∧
    getInputType "https://www.google.com/maps/@1,2" = "Google Maps URL" ∧
    getInputType "Eiffel Tower" = "Place Name" :=
  ⟨(classifier_three_way "ChIJabc123").2.2.1 (by decide) (by decide),
    (classifier_three_way "https://www.google.com/maps/@1,2").2.1 (by decide),
    (classifier_three_way "Eiffel Tower").2.2.2 (by decide) (by decide)⟩

/-- C6 counterexample: a URL containing the substring at-12.34,-56.78
whose at-pattern match is longer; the extractor returns longitude
-56.789, not -56.78. -/
theorem at_substring_overmatch_cex :
    strContains "google.com/maps/@12.34,-56.789" "@12.34,-56.78" = true ∧
    extractCoordinatesFromUrl "google.com/maps/@12.34,-56.789" =
      some ⟨⟨12.34, -56.789⟩, none⟩ ∧
    (⟨⟨12.34, -56.789⟩, none⟩ : Extracted) ≠ ⟨⟨12.34, -56.78⟩, none⟩ := by
  refine ⟨by decide, ?_, ?_⟩
  · rw [@extract_at "google.com/maps/@12.34,-56.789" none
      (['1', '2', '.', '3', '4'], ['-', '5', '6', '.', '7', '8', '9'])
      (by decide) (by decide)]
    exact congrArg some (mkRes_eq tok_12_34 tok_m56_789)
  · norm_num [Extracted.mk.injEq, Coordinates.mk.injEq]

/-- C6 amended: for every URL whose leftmost at-pattern match captures
exactly 12.34 and -56.78 and whose place-name segment, if any, decodes,
the extractor returns latitude 12.34 and longitude -56.78. -/
theorem at_first_match_gives_12_34 (url : String) (pn : Option String)
    (hpn : placeNameOf (jsTrim url).data = some pn)
    (hat : firstMatch tryAt (jsTrim url).data =
      some (['1', '2', '.', '3', '4'], ['-', '5', '6', '.', '7', '8'])) :
    extractCoordinatesFromUrl url = some ⟨⟨12.34, -56.78⟩, pn⟩ := by
  rw [extract_at hpn hat]
  exact congrArg some (mkRes_eq tok_12_34 tok_m56_78)

/-- Witness for C6 amended at a URL ending exactly in the matched pair. -/
theorem at_first_match_gives_12_34_witness :
    extractCoordinatesFromUrl "google.com/maps/@12.34,-56.78" =
      some ⟨⟨12.34, -56.78⟩, none⟩ :=
  at_first_match_gives_12_34 "google.com/maps/@12.34,-56.78" none
    (by decide) (by decide)

end GmapsExtractor
